import Mathlib

/-!
Shallow embedding of `src/kronfluence/module/tracker/factor.py`
(`CovarianceTracker` and `LambdaTracker`) for verifying the repository's
specification.

Modelling conventions:
* Tensor numeric content is tracked exactly over `ℚ`; every dtype/device cast
  performed by the code (`.to(dtype=..., device=...)`, `.cuda()`) is
  value-preserving in this model, but dtype *tags* are tracked where the code
  reassigns storage entries, so that such reassignments are observable.
* Python exceptions are modelled with `Except`; because the code mutates the
  module's storage in place, an error carries the storage as mutated up to the
  raise point.
* Batched tensors of shape `(batch, r, c)` are functions `Fin b → Matrix`.
-/

set_option maxHeartbeats 1000000

open Matrix

namespace Kronfluence

/-- Numeric dtypes a tensor can be tagged with (`factor_args` dtype options). -/
inductive DType where
  | float16
  | bfloat16
  | float32
  | float64
deriving DecidableEq

/-- A 2-D torch tensor: its dtype tag together with its exact numeric value. -/
abbrev Tensor (r c : ℕ) := DType × Matrix (Fin r) (Fin c) ℚ

/-- Python exceptions raised by the tracker code.  `factorsNotFound` models
`FactorsNotFoundError`; `cacheNotFound` models the exception raised by the base
helper `_raise_cache_not_found_exception` (modelled from the spec: a backward
firing with no cached activation is a fatal ordering violation, surfaced
immediately); the remaining constructors are the native Python errors that the
corresponding operations on `None` / lists raise. -/
inductive KError where
  | factorsNotFound (message : String)
  | cacheNotFound
  | attributeError
  | indexError
  | typeError
deriving DecidableEq

/-- The per-module `storage` entries read or written by `LambdaTracker`:
the Lambda matrix, its processed count (`int64`, value kept as `ℤ`), and the
two eigendecomposition factors.  `r` is the output dimension, `c` the input
dimension of the module. -/
structure LambdaStorage (r c : ℕ) where
  lambda_matrix : Option (Tensor r c)
  num_lambda_processed : Option ℤ
  activation_eigenvectors : Option (Tensor c c)
  gradient_eigenvectors : Option (Tensor r r)
deriving DecidableEq

/-- The fields of `factor_args` consulted by the trackers.  The Boolean
`requires_eigendecomposition_for_lambda` is the strategy registry's answer
`FactorConfig.CONFIGS[strategy].requires_eigendecomposition_for_lambda`
(the registry is an external collaborator; we carry the looked-up bit). -/
structure FactorArgs where
  strategy : String
  requires_eigendecomposition_for_lambda : Bool
  use_iterative_lambda_aggregation : Bool
  has_shared_parameters : Bool
  per_sample_gradient_dtype : DType
  lambda_dtype : DType
deriving DecidableEq

/-- Elementwise square of a matrix (`tensor.square_()`). -/
def matSquare {r c : ℕ} (M : Matrix (Fin r) (Fin c) ℚ) : Matrix (Fin r) (Fin c) ℚ :=
  Matrix.of fun i j => M i j * M i j

/-- The message of the `FactorsNotFoundError` raised by `_update_lambda_matrix`. -/
def factorsNotFoundMessage (strategy : String) : String :=
  "The strategy " ++ strategy ++
    " requires eigendecomposition results for Lambda computations, but they are not found."

/-- Source `LambdaTracker._eigendecomposition_results_exist`: every entry named in
`EIGENDECOMPOSITION_FACTOR_NAMES` (the two eigenvector factors) is non-`None`. -/
def _eigendecomposition_results_exist {r c : ℕ} (s : LambdaStorage r c) : Bool :=
  s.activation_eigenvectors.isSome && s.gradient_eigenvectors.isSome

/-- First phase of `_update_lambda_matrix` (factor.py lines 148-179): if
`NUM_LAMBDA_PROCESSED` is `None`, zero-initialize the count and the Lambda
matrix (with the per-sample gradient's dtype `d`), and, when the strategy
requires eigendecomposition, check that the eigenvectors exist — raising
`FactorsNotFoundError` otherwise — and reassign both eigenvector storage
entries to dtype/device-cast copies (value-preserving here, dtype tag `d`). -/
def lambdaInitPhase {r c : ℕ} (args : FactorArgs) (s : LambdaStorage r c) (d : DType) :
    Except (KError × LambdaStorage r c) (LambdaStorage r c) :=
  if s.num_lambda_processed = none then
    let s₁ : LambdaStorage r c :=
      { s with num_lambda_processed := some 0, lambda_matrix := some (d, 0) }
    if args.requires_eigendecomposition_for_lambda then
      match s₁.activation_eigenvectors, s₁.gradient_eigenvectors with
      | some qa, some qg =>
        .ok { s₁ with activation_eigenvectors := some (d, qa.2),
                      gradient_eigenvectors := some (d, qg.2) }
      | _, _ => .error (.factorsNotFound (factorsNotFoundMessage args.strategy), s₁)
    else .ok s₁
  else .ok s

/-- Second phase of `_update_lambda_matrix` (factor.py lines 181-203):
increment `NUM_LAMBDA_PROCESSED` by the batch size, then accumulate the squared
eigenbasis-projected (or raw, when the strategy approximates the eigenbasis as
identity) per-sample gradients into the Lambda matrix — iteratively per sample
or in one batched expression according to `use_iterative_lambda_aggregation`.
Operations on a `None` tensor raise the corresponding native Python error. -/
def lambdaAccumulate {r c : ℕ} (args : FactorArgs) (s : LambdaStorage r c)
    (b : ℕ) (psg : Fin b → Matrix (Fin r) (Fin c) ℚ) :
    Except (KError × LambdaStorage r c) (LambdaStorage r c) :=
  match s.num_lambda_processed with
  | none => .error (.attributeError, s)
  | some n =>
    let s₃ : LambdaStorage r c := { s with num_lambda_processed := some (n + b) }
    if args.requires_eigendecomposition_for_lambda then
      match s₃.activation_eigenvectors, s₃.gradient_eigenvectors with
      | some qa, some qg =>
        match s₃.lambda_matrix with
        | none => .error (.attributeError, s₃)
        | some (dl, L) =>
          if args.use_iterative_lambda_aggregation then
            let projected : Fin b → Matrix (Fin r) (Fin c) ℚ := fun i => psg i * qa.2
            let L' := (List.finRange b).foldl
              (fun acc i => acc + matSquare ((qg.2)ᵀ * projected i)) L
            .ok { s₃ with lambda_matrix := some (dl, L') }
          else
            let Lb := L + (∑ i, matSquare ((qg.2)ᵀ * (psg i * qa.2)))
            .ok { s₃ with lambda_matrix := some (dl, Lb) }
      | _, _ => .error (.typeError, s₃)
    else
      match s₃.lambda_matrix with
      | none => .error (.attributeError, s₃)
      | some (dl, L) =>
        .ok { s₃ with lambda_matrix := some (dl, L + (∑ i, matSquare (psg i))) }

/-- Source `LambdaTracker._update_lambda_matrix`: lazy initialization / eigenvector
check and move (first phase), then count increment and Lambda accumulation
(second phase).  `d` is the dtype of the incoming per-sample gradient batch
`psg` of shape `(b, r, c)`. -/
def _update_lambda_matrix {r c : ℕ} (args : FactorArgs) (s : LambdaStorage r c)
    (b : ℕ) (d : DType) (psg : Fin b → Matrix (Fin r) (Fin c) ℚ) :
    Except (KError × LambdaStorage r c) (LambdaStorage r c) :=
  match lambdaInitPhase args s d with
  | .error e => .error e
  | .ok s₂ => lambdaAccumulate args s₂ b psg

/-- The module-storage state after a call, whether it returned or raised
(mutations made before a raise persist, since storage is mutated in place). -/
def lambdaPostStorage {r c : ℕ}
    (e : Except (KError × LambdaStorage r c) (LambdaStorage r c)) : LambdaStorage r c :=
  match e with
  | .ok s => s
  | .error (_, s) => s

/-- The per-pass transient cache slot `self.cached_activations`: a single
tensor on the non-shared path, an ordered list (a stack) on the shared path.
Activations are abstract (`A`). -/
inductive ActCache (A : Type) where
  | single (t : A)
  | stack (l : List A)
deriving DecidableEq

/-- Per-module `LambdaTracker` state: the storage view plus the transient
caches (`cached_activations`, `cached_per_sample_gradient`).  The cached
per-sample gradient is a batch tensor of shape `(b, r, c)` with a dtype tag. -/
structure LambdaTrackerState (A : Type) (b r c : ℕ) where
  storage : LambdaStorage r c
  cached_activations : Option (ActCache A)
  cached_per_sample_gradient : Option (DType × (Fin b → Matrix (Fin r) (Fin c) ℚ))
deriving DecidableEq

/-- Modelled from the spec: the external module capability
`compute_per_sample_gradient(activation, gradient) -> tensor[batch, r, c]`.
Activations (`A`) and output gradients (`G`) are abstract; the base helper
`_scale_output_gradient` is a value-preserving dtype rescale in this model. -/
structure ModuleOps (A G : Type) (b r c : ℕ) where
  compute_per_sample_gradient : A → G → Fin b → Matrix (Fin r) (Fin c) ℚ

/-- Modelled from the spec: the base tracker helper `clear_all_cache` clears
every transient activation / per-sample-gradient cache of the tracker. -/
def clear_all_cache {A : Type} {b r c : ℕ} (st : LambdaTrackerState A b r c) :
    LambdaTrackerState A b r c :=
  { st with cached_activations := none, cached_per_sample_gradient := none }

/-- Source `LambdaTracker` forward hook (factor.py lines 209-228): cache the detached
first input (the offload/dtype casts are value-preserving here); the shared
path appends to an ordered list created on first firing, the non-shared path
overwrites the single slot.  Appending to a cached single tensor would be a
list method on a tensor (`AttributeError`); that state is unreachable while
`has_shared_parameters` stays fixed. -/
def LambdaTracker.forward_hook {A : Type} {b r c : ℕ} (args : FactorArgs)
    (st : LambdaTrackerState A b r c) (input : A) :
    Except (KError × LambdaTrackerState A b r c) (LambdaTrackerState A b r c) :=
  if args.has_shared_parameters then
    match st.cached_activations with
    | none => .ok { st with cached_activations := some (.stack [input]) }
    | some (.stack l) => .ok { st with cached_activations := some (.stack (l ++ [input])) }
    | some (.single _) => .error (.attributeError, st)
  else
    .ok { st with cached_activations := some (.single input) }

/-- Source `LambdaTracker` non-shared backward hook (factor.py lines 230-243): a
missing cached activation raises the cache-not-found error; otherwise compute
the per-sample gradient from the cached activation and the rescaled output
gradient, cast it to `lambda_dtype`, clear all caches, then update the Lambda
matrix. -/
def LambdaTracker.backward_hook {A G : Type} {b r c : ℕ}
    (ops : ModuleOps A G b r c) (args : FactorArgs)
    (st : LambdaTrackerState A b r c) (g : G) :
    Except (KError × LambdaTrackerState A b r c) (LambdaTrackerState A b r c) :=
  match st.cached_activations with
  | none => .error (.cacheNotFound, st)
  | some (.stack _) => .error (.attributeError, st)
  | some (.single a) =>
    let psg := ops.compute_per_sample_gradient a g
    let st₁ := clear_all_cache st
    match _update_lambda_matrix args st₁.storage b args.lambda_dtype psg with
    | .ok s₂ => .ok { st₁ with storage := s₂ }
    | .error (e, s₂) => .error (e, { st₁ with storage := s₂ })

/-- Source `LambdaTracker` shared backward hook (factor.py lines 245-257): pop the
most recently pushed cached activation (`list.pop()`), compute its per-sample
gradient, and add it into the running `cached_per_sample_gradient`, which is
lazily zero-initialized (`torch.zeros_like`) at the first contribution.
Popping from `None` or from a single cached tensor raises `AttributeError`;
popping from an empty list raises `IndexError`. -/
def LambdaTracker.shared_backward_hook {A G : Type} {b r c : ℕ}
    (ops : ModuleOps A G b r c) (args : FactorArgs)
    (st : LambdaTrackerState A b r c) (g : G) :
    Except (KError × LambdaTrackerState A b r c) (LambdaTrackerState A b r c) :=
  match st.cached_activations with
  | none => .error (.attributeError, st)
  | some (.single _) => .error (.attributeError, st)
  | some (.stack l) =>
    match l.getLast? with
    | none => .error (.indexError, st)
    | some a =>
      let psg := ops.compute_per_sample_gradient a g
      let prev := st.cached_per_sample_gradient.getD (args.per_sample_gradient_dtype, 0)
      .ok { st with cached_activations := some (.stack l.dropLast),
                    cached_per_sample_gradient := some (prev.1, prev.2 + psg) }

/-- Source `LambdaTracker.finalize_iteration` (factor.py lines 261-267): cast the
cached per-sample gradient to `lambda_dtype` — dereferencing it before the
shared-parameters check, so a `None` cache raises — feed it into the Lambda
update when parameters are shared, then clear all caches. -/
def LambdaTracker.finalize_iteration {A : Type} {b r c : ℕ} (args : FactorArgs)
    (st : LambdaTrackerState A b r c) :
    Except (KError × LambdaTrackerState A b r c) (LambdaTrackerState A b r c) :=
  match st.cached_per_sample_gradient with
  | none => .error (.attributeError, st)
  | some p =>
    let st₁ := { st with cached_per_sample_gradient := some (args.lambda_dtype, p.2) }
    if args.has_shared_parameters then
      match _update_lambda_matrix args st₁.storage b args.lambda_dtype p.2 with
      | .ok s₂ => .ok (clear_all_cache { st₁ with storage := s₂ })
      | .error (e, s₂) => .error (e, { st₁ with storage := s₂ })
    else
      .ok (clear_all_cache st₁)

/-- Source `LambdaTracker.exist`: every factor named in `LAMBDA_FACTOR_NAMES`
(modelled from the spec: the Lambda matrix and its processed count) is
non-`None`. -/
def LambdaTracker.exist {r c : ℕ} (s : LambdaStorage r c) : Bool :=
  s.lambda_matrix.isSome && s.num_lambda_processed.isSome

/-- Modelled from the spec: the external distributed-context queries
(`dist.is_initialized()`, `torch.cuda.is_available()`) and the blocking
sum-reduction-to-coordinator primitive.  `reduceM` and `reduceC` stand for
the effect of `dist.reduce(tensor, op=SUM, dst=0)` on this process's copy of
a matrix or count; the preceding `.cuda()` move is value-preserving. -/
structure DistEnv where
  is_initialized : Bool
  cuda_available : Bool
  reduceM : {n m : ℕ} → Matrix (Fin n) (Fin m) ℚ → Matrix (Fin n) (Fin m) ℚ
  reduceC : ℤ → ℤ

/-- Source `LambdaTracker.synchronize` (factor.py lines 276-286): when a distributed
context is active, CUDA is available, and the Lambda factors exist, replace
each factor named in `LAMBDA_FACTOR_NAMES` by its cross-process sum-reduction;
otherwise do nothing.  `num_processes` is deleted unused, as in the code. -/
def LambdaTracker.synchronize {r c : ℕ} (env : DistEnv) (s : LambdaStorage r c)
    (_num_processes : ℕ) : LambdaStorage r c :=
  if env.is_initialized && env.cuda_available && LambdaTracker.exist s then
    { s with lambda_matrix := s.lambda_matrix.map fun t => (t.1, env.reduceM t.2),
             num_lambda_processed := s.num_lambda_processed.map env.reduceC }
  else s

/-- Source `LambdaTracker.release_memory` (factor.py lines 288-293): clear all
transient caches, then set every factor named in `LAMBDA_FACTOR_NAMES` to
`None`. -/
def LambdaTracker.release_memory {A : Type} {b r c : ℕ}
    (st : LambdaTrackerState A b r c) : LambdaTrackerState A b r c :=
  let st₁ := clear_all_cache st
  let s₂ := { st₁.storage with lambda_matrix := none, num_lambda_processed := none }
  { st₁ with storage := s₂ }

/-- Runs one pass's forward firings in order through the forward hook. -/
def LambdaTracker.runForwards {A : Type} {b r c : ℕ} (args : FactorArgs)
    (st : LambdaTrackerState A b r c) (acts : List A) :
    Except (KError × LambdaTrackerState A b r c) (LambdaTrackerState A b r c) :=
  acts.foldlM (fun cur a => LambdaTracker.forward_hook args cur a) st

/-- Runs shared-path backward firings in order through the shared hook. -/
def LambdaTracker.runSharedBackwards {A G : Type} {b r c : ℕ}
    (ops : ModuleOps A G b r c) (args : FactorArgs)
    (st : LambdaTrackerState A b r c) (grads : List G) :
    Except (KError × LambdaTrackerState A b r c) (LambdaTrackerState A b r c) :=
  grads.foldlM (fun cur g => LambdaTracker.shared_backward_hook ops args cur g) st

/-- The per-module `storage` entries read or written by `CovarianceTracker`.
No claim involves covariance dtypes, so only the exact values are kept (all
dtype casts are value-preserving in this model).  `dIn` and `dOut` are the
flattened activation and gradient feature dimensions. -/
structure CovStorage (dIn dOut : ℕ) where
  activation_covariance_matrix : Option (Matrix (Fin dIn) (Fin dIn) ℚ)
  num_activation_covariance_processed : Option ℤ
  gradient_covariance_matrix : Option (Matrix (Fin dOut) (Fin dOut) ℚ)
  num_gradient_covariance_processed : Option ℤ
deriving DecidableEq

/-- Source `CovarianceTracker._update_activation_covariance_matrix` (factor.py lines
28-52): when `NUM_ACTIVATION_COVARIANCE_PROCESSED` is `None`, zero-initialize
it together with the square covariance matrix; then add the element count and
accumulate `xᵀ * x` in place (`addmm_`).  `x` is the flattened activation
returned by the external `get_flattened_activation`, with row-index type `ρ`
(the flattened batch dimension) and `count` its element count.  Under the
joint-presence invariant the matrix is present whenever the count is, so the
in-place adds are expressed totally with `getD`. -/
def _update_activation_covariance_matrix {dIn dOut : ℕ} {ρ : Type} [Fintype ρ]
    (s : CovStorage dIn dOut) (x : Matrix ρ (Fin dIn) ℚ) (count : ℤ) :
    CovStorage dIn dOut :=
  let s₁ :=
    if s.num_activation_covariance_processed = none then
      { s with num_activation_covariance_processed := some 0,
               activation_covariance_matrix := some 0 }
    else s
  { s₁ with
      num_activation_covariance_processed :=
        some (s₁.num_activation_covariance_processed.getD 0 + count),
      activation_covariance_matrix :=
        some (s₁.activation_covariance_matrix.getD 0 + xᵀ * x) }

/-- Source `CovarianceTracker._update_gradient_covariance_matrix` (factor.py lines
54-80): the analogous lazy-allocate, count-increment and `gᵀ * g`
accumulation for the pseudo-gradient covariance, with its own independently
tracked count. -/
def _update_gradient_covariance_matrix {dIn dOut : ℕ} {ρ : Type} [Fintype ρ]
    (s : CovStorage dIn dOut) (g : Matrix ρ (Fin dOut) ℚ) (count : ℤ) :
    CovStorage dIn dOut :=
  let s₁ :=
    if s.num_gradient_covariance_processed = none then
      { s with num_gradient_covariance_processed := some 0,
               gradient_covariance_matrix := some 0 }
    else s
  { s₁ with
      num_gradient_covariance_processed :=
        some (s₁.num_gradient_covariance_processed.getD 0 + count),
      gradient_covariance_matrix :=
        some (s₁.gradient_covariance_matrix.getD 0 + gᵀ * g) }

/-- One covariance-tracker firing: a forward (activation) or backward
(gradient) firing, carrying the flattened matrix for that firing (its row
count `m` may differ per firing) and the element count reported by the
flattening capability. -/
inductive CovFiring (dIn dOut : ℕ) where
  | act (m : ℕ) (x : Matrix (Fin m) (Fin dIn) ℚ) (count : ℤ)
  | grad (m : ℕ) (g : Matrix (Fin m) (Fin dOut) ℚ) (count : ℤ)

/-- Dispatches one firing to the matching covariance update. -/
def covStep {dIn dOut : ℕ} (s : CovStorage dIn dOut) :
    CovFiring dIn dOut → CovStorage dIn dOut
  | .act _ x cnt => _update_activation_covariance_matrix s x cnt
  | .grad _ g cnt => _update_gradient_covariance_matrix s g cnt

/-- Runs a sequence of covariance firings in order. -/
def runCovariance {dIn dOut : ℕ} (s : CovStorage dIn dOut)
    (evs : List (CovFiring dIn dOut)) : CovStorage dIn dOut :=
  evs.foldl covStep s

/-- The fresh covariance storage at the start of a fit pass. -/
def covInit (dIn dOut : ℕ) : CovStorage dIn dOut := ⟨none, none, none, none⟩

/-- Gram contributions `xᵀ * x` of the activation firings of a sequence. -/
def actGrams {dIn dOut : ℕ} (evs : List (CovFiring dIn dOut)) :
    List (Matrix (Fin dIn) (Fin dIn) ℚ) :=
  evs.filterMap fun e => match e with
    | .act _ x _ => some (xᵀ * x)
    | _ => none

/-- Element counts of the activation firings of a sequence. -/
def actCounts {dIn dOut : ℕ} (evs : List (CovFiring dIn dOut)) : List ℤ :=
  evs.filterMap fun e => match e with
    | .act _ _ cnt => some cnt
    | _ => none

/-- Gram contributions `gᵀ * g` of the gradient firings of a sequence. -/
def gradGrams {dIn dOut : ℕ} (evs : List (CovFiring dIn dOut)) :
    List (Matrix (Fin dOut) (Fin dOut) ℚ) :=
  evs.filterMap fun e => match e with
    | .grad _ g _ => some (gᵀ * g)
    | _ => none

/-- Element counts of the gradient firings of a sequence. -/
def gradCounts {dIn dOut : ℕ} (evs : List (CovFiring dIn dOut)) : List ℤ :=
  evs.filterMap fun e => match e with
    | .grad _ _ cnt => some cnt
    | _ => none

/-- Source `CovarianceTracker.exist`: every factor named in `COVARIANCE_FACTOR_NAMES`
(modelled from the spec: both covariance matrices and both counts) is
non-`None`. -/
def CovarianceTracker.exist {dIn dOut : ℕ} (s : CovStorage dIn dOut) : Bool :=
  s.activation_covariance_matrix.isSome &&
    s.num_activation_covariance_processed.isSome &&
    s.gradient_covariance_matrix.isSome &&
    s.num_gradient_covariance_processed.isSome

/-- Source `CovarianceTracker.synchronize` (factor.py lines 110-120): when a
distributed context is active, CUDA is available, and the covariance factors
exist, replace each factor named in `COVARIANCE_FACTOR_NAMES` by its
cross-process sum-reduction; otherwise do nothing.  `num_processes` is deleted
unused, as in the code. -/
def CovarianceTracker.synchronize {dIn dOut : ℕ} (env : DistEnv)
    (s : CovStorage dIn dOut) (_num_processes : ℕ) : CovStorage dIn dOut :=
  if env.is_initialized && env.cuda_available && CovarianceTracker.exist s then
    { activation_covariance_matrix := s.activation_covariance_matrix.map env.reduceM,
      num_activation_covariance_processed :=
        s.num_activation_covariance_processed.map env.reduceC,
      gradient_covariance_matrix := s.gradient_covariance_matrix.map env.reduceM,
      num_gradient_covariance_processed :=
        s.num_gradient_covariance_processed.map env.reduceC }
  else s

/-- Source `CovarianceTracker.release_memory` (factor.py lines 122-126): set every
factor named in `COVARIANCE_FACTOR_NAMES` to `None`. -/
def CovarianceTracker.release_memory {dIn dOut : ℕ}
    (_s : CovStorage dIn dOut) : CovStorage dIn dOut :=
  { activation_covariance_matrix := none,
    num_activation_covariance_processed := none,
    gradient_covariance_matrix := none,
    num_gradient_covariance_processed := none }

/-! Helper lemmas. -/

/-- Equality of `Except` values is decidable componentwise. -/
instance {ε α : Type} [DecidableEq ε] [DecidableEq α] : DecidableEq (Except ε α)
  | .ok a, .ok b => decidable_of_iff (a = b) (by simp)
  | .error a, .error b => decidable_of_iff (a = b) (by simp)
  | .ok _, .error _ => isFalse (by simp)
  | .error _, .ok _ => isFalse (by simp)

/-- Folding `+ f x` over a list adds the sum of the mapped list. -/
theorem foldl_add_eq {M α : Type*} [AddCommMonoid M] (f : α → M) :
    ∀ (l : List α) (a : M), l.foldl (fun acc x => acc + f x) a = a + (l.map f).sum := by
  intro l
  induction l with
  | nil => intro a; simp
  | cons x xs ih => intro a; simp [ih, add_assoc]

/-- Folding `+ f i` over `List.finRange b` adds the `Finset` sum over `Fin b`. -/
theorem foldl_add_finRange {M : Type*} [AddCommMonoid M] {b : ℕ} (f : Fin b → M) (a : M) :
    (List.finRange b).foldl (fun acc i => acc + f i) a = a + (∑ i, f i) := by
  rw [foldl_add_eq, Fin.sum_univ_def]

/-- The initialization phase never reads `use_iterative_lambda_aggregation`. -/
theorem lambdaInitPhase_iter_irrel {r c : ℕ} (args : FactorArgs)
    (s : LambdaStorage r c) (d : DType) (flag : Bool) :
    lambdaInitPhase { args with use_iterative_lambda_aggregation := flag } s d
      = lambdaInitPhase args s d := by
  simp [lambdaInitPhase]

/-- Iterative and batched Lambda accumulation agree exactly: the per-sample
loop adds the same total as the single batched add. -/
theorem lambdaAccumulate_iter_eq_batched {r c : ℕ} (args : FactorArgs)
    (s : LambdaStorage r c) (b : ℕ) (psg : Fin b → Matrix (Fin r) (Fin c) ℚ) :
    lambdaAccumulate { args with use_iterative_lambda_aggregation := true } s b psg
      = lambdaAccumulate { args with use_iterative_lambda_aggregation := false } s b psg := by
  unfold lambdaAccumulate
  cases s.num_lambda_processed with
  | none => rfl
  | some n =>
    by_cases hreq : args.requires_eigendecomposition_for_lambda
    · simp only [hreq]
      cases s.activation_eigenvectors with
      | none => rfl
      | some qa =>
        cases s.gradient_eigenvectors with
        | none => rfl
        | some qg =>
          cases s.lambda_matrix with
          | none => rfl
          | some t =>
            cases t with
            | mk dl L => simp [foldl_add_finRange]
    · simp only [hreq]
      rfl

/-- The two aggregation modes of `_update_lambda_matrix` produce identical
results (same storage on success, same exception and post-state on failure),
for every starting storage and batch. -/
theorem update_lambda_iter_eq_batched {r c : ℕ} (args : FactorArgs)
    (s : LambdaStorage r c) (b : ℕ) (d : DType)
    (psg : Fin b → Matrix (Fin r) (Fin c) ℚ) :
    _update_lambda_matrix { args with use_iterative_lambda_aggregation := true } s b d psg
      = _update_lambda_matrix { args with use_iterative_lambda_aggregation := false } s b d psg := by
  unfold _update_lambda_matrix
  rw [lambdaInitPhase_iter_irrel args s d true, lambdaInitPhase_iter_irrel args s d false]
  cases lambdaInitPhase args s d with
  | error e => rfl
  | ok s₂ => simpa using lambdaAccumulate_iter_eq_batched args s₂ b psg

/-- C2: for every per-sample gradient batch of shape `(b, r, c)` and every
pair of eigenvector matrices present in storage, when the strategy requires
eigendecomposition, `_update_lambda_matrix` with iterative aggregation
produces exactly the same result as with batched aggregation (exact
arithmetic), and the update succeeds, adding the sum of squared
doubly-projected per-sample gradients to the Lambda matrix and incrementing
the processed count by the batch size. -/
theorem lambda_iterative_matches_batched {r c : ℕ} (args : FactorArgs)
    (s : LambdaStorage r c) (b : ℕ) (d : DType)
    (psg : Fin b → Matrix (Fin r) (Fin c) ℚ) (qa : Tensor c c) (qg : Tensor r r)
    (hreq : args.requires_eigendecomposition_for_lambda = true)
    (hqa : s.activation_eigenvectors = some qa)
    (hqg : s.gradient_eigenvectors = some qg)
    (hinv : s.num_lambda_processed = none ↔ s.lambda_matrix = none) :
    _update_lambda_matrix { args with use_iterative_lambda_aggregation := true } s b d psg
      = _update_lambda_matrix { args with use_iterative_lambda_aggregation := false } s b d psg
    ∧ ∃ s₂, _update_lambda_matrix args s b d psg = .ok s₂
        ∧ s₂.num_lambda_processed = some (s.num_lambda_processed.getD 0 + b)
        ∧ s₂.lambda_matrix.map Prod.snd
            = some ((s.lambda_matrix.map Prod.snd).getD 0
                + (∑ i, matSquare ((qg.2)ᵀ * (psg i * qa.2)))) := by
  refine ⟨update_lambda_iter_eq_batched args s b d psg, ?_⟩
  cases hb : s.num_lambda_processed with
  | none =>
    have hl : s.lambda_matrix = none := hinv.mp hb
    have hupd : _update_lambda_matrix args s b d psg = .ok
        { s with num_lambda_processed := some ((0 : ℤ) + b),
                 lambda_matrix := some (d, (0 : Matrix (Fin r) (Fin c) ℚ)
                   + (∑ i, matSquare ((qg.2)ᵀ * (psg i * qa.2)))),
                 activation_eigenvectors := some (d, qa.2),
                 gradient_eigenvectors := some (d, qg.2) } := by
      unfold _update_lambda_matrix lambdaInitPhase lambdaAccumulate
      by_cases hflag : args.use_iterative_lambda_aggregation
      · simp [hb, hreq, hqa, hqg, hflag, foldl_add_finRange]
      · simp [hb, hreq, hqa, hqg, hflag]
    exact ⟨_, hupd, by simp [hb], by simp [hl]⟩
  | some n =>
    obtain ⟨dl, L, hl⟩ : ∃ dl L, s.lambda_matrix = some (dl, L) := by
      cases htl : s.lambda_matrix with
      | none => exact absurd (hinv.mpr htl) (by simp [hb])
      | some t => exact ⟨t.1, t.2, by simp⟩
    have hupd : _update_lambda_matrix args s b d psg = .ok
        { s with num_lambda_processed := some (n + b),
                 lambda_matrix := some (dl, L
                   + (∑ i, matSquare ((qg.2)ᵀ * (psg i * qa.2)))) } := by
      unfold _update_lambda_matrix lambdaInitPhase lambdaAccumulate
      by_cases hflag : args.use_iterative_lambda_aggregation
      · simp [hb, hreq, hqa, hqg, hl, hflag, foldl_add_finRange]
      · simp [hb, hreq, hqa, hqg, hl, hflag]
    exact ⟨_, hupd, by simp [hb], by simp [hl]⟩

/-- Concrete configuration for the C2 witness (ekfac-style strategy). -/
def c2Args : FactorArgs := ⟨"ekfac", true, false, false, .float32, .float32⟩

/-- Concrete 1×1 eigenvector tensor for the C2 witness. -/
def c2Qa : Tensor 1 1 := (.float64, Matrix.of fun _ _ => (2 : ℚ))

/-- Concrete storage with both eigenvector factors present. -/
def c2Store : LambdaStorage 1 1 := ⟨none, none, some c2Qa, some c2Qa⟩

/-- Concrete per-sample gradient batch for the C2 witness. -/
def c2Psg : Fin 1 → Matrix (Fin 1) (Fin 1) ℚ := fun _ => Matrix.of fun _ _ => (3 : ℚ)

/-- Witness for C2 at a concrete input. -/
theorem lambda_iterative_matches_batched_witness :
    _update_lambda_matrix { c2Args with use_iterative_lambda_aggregation := true }
        c2Store 1 .float32 c2Psg
      = _update_lambda_matrix { c2Args with use_iterative_lambda_aggregation := false }
          c2Store 1 .float32 c2Psg
    ∧ ∃ s₂, _update_lambda_matrix c2Args c2Store 1 .float32 c2Psg = .ok s₂
        ∧ s₂.num_lambda_processed = some (c2Store.num_lambda_processed.getD 0 + 1)
        ∧ s₂.lambda_matrix.map Prod.snd
            = some ((c2Store.lambda_matrix.map Prod.snd).getD 0
                + (∑ i, matSquare ((c2Qa.2)ᵀ * (c2Psg i * c2Qa.2)))) :=
  lambda_iterative_matches_batched c2Args c2Store 1 .float32 c2Psg c2Qa c2Qa
    rfl rfl rfl (by simp [c2Store])

/-- C1 (amended): under a strategy requiring eigendecomposition, with either
eigenvector set absent and on a first call (processed count still `None`),
`_update_lambda_matrix` raises `FactorsNotFoundError` naming the strategy and
accumulates nothing — but the failed call leaves the Lambda factor entries
freshly zero-initialized (count `0`, zero matrix) rather than at their
pre-call `None`, because lazy allocation precedes the eigenvector check; the
eigenvector entries themselves are unchanged. -/
theorem lambda_factors_not_found_zero_initialized {r c : ℕ} (args : FactorArgs)
    (s : LambdaStorage r c) (b : ℕ) (d : DType)
    (psg : Fin b → Matrix (Fin r) (Fin c) ℚ)
    (hreq : args.requires_eigendecomposition_for_lambda = true)
    (hfresh : s.num_lambda_processed = none)
    (habs : _eigendecomposition_results_exist s = false) :
    _update_lambda_matrix args s b d psg
      = .error (.factorsNotFound (factorsNotFoundMessage args.strategy),
          { s with num_lambda_processed := some 0, lambda_matrix := some (d, 0) })
    ∧ ∃ t, factorsNotFoundMessage args.strategy
        = "The strategy " ++ args.strategy ++ t := by
  constructor
  · unfold _update_lambda_matrix lambdaInitPhase
    cases ha : s.activation_eigenvectors <;> cases hg : s.gradient_eigenvectors <;>
      simp_all [_eigendecomposition_results_exist, hreq, hfresh]
  · exact ⟨" requires eigendecomposition results for Lambda computations, but they are not found.",
      rfl⟩

/-- Concrete configuration for C1 (strategy requiring eigendecomposition). -/
def c1Args : FactorArgs := ⟨"ekfac", true, false, false, .float32, .float32⟩

/-- Concrete pre-call storage for C1: everything absent. -/
def c1Pre : LambdaStorage 1 1 := ⟨none, none, none, none⟩

/-- Witness for the amended C1 at a concrete input. -/
theorem lambda_factors_not_found_zero_initialized_witness :
    _update_lambda_matrix c1Args c1Pre 1 .float32 (fun _ => 0)
      = .error (.factorsNotFound (factorsNotFoundMessage c1Args.strategy),
          { c1Pre with num_lambda_processed := some 0, lambda_matrix := some (.float32, 0) })
    ∧ ∃ t, factorsNotFoundMessage c1Args.strategy
        = "The strategy " ++ c1Args.strategy ++ t :=
  lambda_factors_not_found_zero_initialized c1Args c1Pre 1 .float32 (fun _ => 0) rfl rfl rfl

/-- C1 as stated is false: at this concrete input the call does raise
`FactorsNotFoundError`, yet the Lambda factor entries are not left at their
pre-call `None` — both are freshly allocated by the failed call. -/
theorem lambda_factors_not_found_mutates_storage :
    _update_lambda_matrix c1Args c1Pre 1 .float32 (fun _ => 0)
      = .error (.factorsNotFound (factorsNotFoundMessage "ekfac"),
          { c1Pre with num_lambda_processed := some 0, lambda_matrix := some (.float32, 0) })
    ∧ c1Pre.lambda_matrix = none
    ∧ (lambdaPostStorage
        (_update_lambda_matrix c1Args c1Pre 1 .float32 (fun _ => 0))).lambda_matrix ≠ none
    ∧ c1Pre.num_lambda_processed = none
    ∧ (lambdaPostStorage
        (_update_lambda_matrix c1Args c1Pre 1 .float32 (fun _ => 0))).num_lambda_processed
        ≠ none := by
  refine ⟨?_, rfl, ?_, rfl, ?_⟩ <;> decide

/-- The numeric content (and presence) of the two eigenvector entries,
forgetting only the dtype tags. -/
def eigenValues {r c : ℕ} (s : LambdaStorage r c) :
    Option (Matrix (Fin c) (Fin c) ℚ) × Option (Matrix (Fin r) (Fin r) ℚ) :=
  (s.activation_eigenvectors.map Prod.snd, s.gradient_eigenvectors.map Prod.snd)

/-- Post-state of a tracker-hook call, whether it returned or raised. -/
def lambdaStatePost {A : Type} {b r c : ℕ}
    (e : Except (KError × LambdaTrackerState A b r c) (LambdaTrackerState A b r c)) :
    LambdaTrackerState A b r c :=
  match e with
  | .ok st => st
  | .error (_, st) => st

/-- The initialization phase preserves eigenvector numeric content and
presence (it only recasts dtypes). -/
theorem eigenValues_initPhase {r c : ℕ} (args : FactorArgs)
    (s : LambdaStorage r c) (d : DType) :
    eigenValues (lambdaPostStorage (lambdaInitPhase args s d)) = eigenValues s := by
  rcases s with ⟨lm, np, ae, ge⟩
  unfold lambdaInitPhase lambdaPostStorage eigenValues
  rcases np with _ | n <;> rcases ae with _ | qa <;> rcases ge with _ | qg <;>
    by_cases hreq : args.requires_eigendecomposition_for_lambda <;> simp [hreq]

/-- The accumulation phase never touches the eigenvector entries. -/
theorem eigenValues_accumulate {r c : ℕ} (args : FactorArgs)
    (s : LambdaStorage r c) (b : ℕ) (psg : Fin b → Matrix (Fin r) (Fin c) ℚ) :
    eigenValues (lambdaPostStorage (lambdaAccumulate args s b psg)) = eigenValues s := by
  rcases s with ⟨lm, np, ae, ge⟩
  unfold lambdaAccumulate lambdaPostStorage eigenValues
  rcases np with _ | n
  · rfl
  · rcases lm with _ | ⟨dl, L⟩ <;> rcases ae with _ | qa <;> rcases ge with _ | qg <;>
      by_cases hreq : args.requires_eigendecomposition_for_lambda <;>
      by_cases hflag : args.use_iterative_lambda_aggregation <;>
      simp [hreq, hflag]

/-- Function `_update_lambda_matrix` preserves eigenvector numeric content and
presence, whether it returns or raises. -/
theorem eigenValues_update {r c : ℕ} (args : FactorArgs) (s : LambdaStorage r c)
    (b : ℕ) (d : DType) (psg : Fin b → Matrix (Fin r) (Fin c) ℚ) :
    eigenValues (lambdaPostStorage (_update_lambda_matrix args s b d psg))
      = eigenValues s := by
  have h1 := eigenValues_initPhase args s d
  unfold _update_lambda_matrix
  cases hini : lambdaInitPhase args s d with
  | error e => rw [hini] at h1; simpa [lambdaPostStorage] using h1
  | ok s₂ =>
    rw [hini] at h1
    simp only [lambdaPostStorage] at h1
    rw [← h1]
    exact eigenValues_accumulate args s₂ b psg

/-- C5 (amended): the trackers never change the numeric content or the
presence of the eigendecomposition factors; the only modification any
`LambdaTracker` operation makes to those storage entries is the first-call
dtype/device recast inside `_update_lambda_matrix` (value-preserving), and
`release_memory` and `synchronize` leave the entries exactly unchanged. -/
theorem lambda_eigenvectors_values_read_only :
    (∀ (r c : ℕ) (args : FactorArgs) (s : LambdaStorage r c) (b : ℕ) (d : DType)
        (psg : Fin b → Matrix (Fin r) (Fin c) ℚ),
      eigenValues (lambdaPostStorage (_update_lambda_matrix args s b d psg))
        = eigenValues s)
    ∧ (∀ (A : Type) (b r c : ℕ) (st : LambdaTrackerState A b r c),
        (LambdaTracker.release_memory st).storage.activation_eigenvectors
            = st.storage.activation_eigenvectors
          ∧ (LambdaTracker.release_memory st).storage.gradient_eigenvectors
            = st.storage.gradient_eigenvectors)
    ∧ (∀ (r c : ℕ) (env : DistEnv) (s : LambdaStorage r c) (k : ℕ),
        (LambdaTracker.synchronize env s k).activation_eigenvectors
            = s.activation_eigenvectors
          ∧ (LambdaTracker.synchronize env s k).gradient_eigenvectors
            = s.gradient_eigenvectors)
    ∧ (∀ (A : Type) (b r c : ℕ) (args : FactorArgs)
        (st : LambdaTrackerState A b r c) (input : A),
        eigenValues (lambdaStatePost (LambdaTracker.forward_hook args st input)).storage
          = eigenValues st.storage)
    ∧ (∀ (A G : Type) (b r c : ℕ) (ops : ModuleOps A G b r c) (args : FactorArgs)
        (st : LambdaTrackerState A b r c) (g : G),
        eigenValues (lambdaStatePost (LambdaTracker.backward_hook ops args st g)).storage
            = eigenValues st.storage
          ∧ eigenValues
              (lambdaStatePost (LambdaTracker.shared_backward_hook ops args st g)).storage
            = eigenValues st.storage)
    ∧ (∀ (A : Type) (b r c : ℕ) (args : FactorArgs) (st : LambdaTrackerState A b r c),
        eigenValues (lambdaStatePost (LambdaTracker.finalize_iteration args st)).storage
          = eigenValues st.storage) := by
  refine ⟨?_, ?_, ?_, ?_, ?_, ?_⟩
  · intro r c args s b d psg
    exact eigenValues_update args s b d psg
  · intro A b r c st
    exact ⟨rfl, rfl⟩
  · intro r c env s k
    unfold LambdaTracker.synchronize
    split
    · exact ⟨rfl, rfl⟩
    · exact ⟨rfl, rfl⟩
  · intro A b r c args st input
    by_cases h : args.has_shared_parameters
    · cases hca : st.cached_activations with
      | none => simp [LambdaTracker.forward_hook, h, hca, lambdaStatePost]
      | some ac => cases ac <;> simp [LambdaTracker.forward_hook, h, hca, lambdaStatePost]
    · simp [LambdaTracker.forward_hook, h, lambdaStatePost]
  · intro A G b r c ops args st g
    constructor
    · cases hca : st.cached_activations with
      | none => simp [LambdaTracker.backward_hook, hca, lambdaStatePost]
      | some ac =>
        cases ac with
        | stack l => simp [LambdaTracker.backward_hook, hca, lambdaStatePost]
        | single a =>
          have h := eigenValues_update args st.storage b args.lambda_dtype
            (ops.compute_per_sample_gradient a g)
          cases hupd : _update_lambda_matrix args st.storage b args.lambda_dtype
              (ops.compute_per_sample_gradient a g) with
          | ok s₂ =>
            rw [hupd] at h
            simp only [lambdaPostStorage] at h
            simpa [LambdaTracker.backward_hook, hca, lambdaStatePost,
              clear_all_cache, hupd] using h
          | error e =>
            obtain ⟨err, s₂⟩ := e
            rw [hupd] at h
            simp only [lambdaPostStorage] at h
            simpa [LambdaTracker.backward_hook, hca, lambdaStatePost,
              clear_all_cache, hupd] using h
    · cases hca : st.cached_activations with
      | none => simp [LambdaTracker.shared_backward_hook, hca, lambdaStatePost]
      | some ac =>
        cases ac with
        | single t => simp [LambdaTracker.shared_backward_hook, hca, lambdaStatePost]
        | stack l =>
          cases hl : l.getLast? with
          | none => simp [LambdaTracker.shared_backward_hook, hca, hl, lambdaStatePost]
          | some a => simp [LambdaTracker.shared_backward_hook, hca, hl, lambdaStatePost]
  · intro A b r c args st
    cases hps : st.cached_per_sample_gradient with
    | none => simp [LambdaTracker.finalize_iteration, hps, lambdaStatePost]
    | some p =>
      by_cases hsh : args.has_shared_parameters
      · have h := eigenValues_update args st.storage b args.lambda_dtype p.2
        cases hupd : _update_lambda_matrix args st.storage b args.lambda_dtype p.2 with
        | ok s₂ =>
          rw [hupd] at h
          simp only [lambdaPostStorage] at h
          simpa [LambdaTracker.finalize_iteration, hps, hsh, hupd, lambdaStatePost,
            clear_all_cache] using h
        | error e =>
          obtain ⟨err, s₂⟩ := e
          rw [hupd] at h
          simp only [lambdaPostStorage] at h
          simpa [LambdaTracker.finalize_iteration, hps, hsh, hupd, lambdaStatePost] using h
      · simp [LambdaTracker.finalize_iteration, hps, hsh, lambdaStatePost, clear_all_cache]

/-- Concrete configuration for the C5 counterexample. -/
def c5Args : FactorArgs := ⟨"ekfac", true, false, false, .float32, .float32⟩

/-- Concrete float64 eigenvector tensor for the C5 counterexample. -/
def c5Qa : Tensor 1 1 := (.float64, Matrix.of fun _ _ => (2 : ℚ))

/-- Storage with float64 eigenvectors present and Lambda factors absent. -/
def c5Pre : LambdaStorage 1 1 := ⟨none, none, some c5Qa, some c5Qa⟩

/-- C5 as stated is false: the first Lambda update under an
eigendecomposition-requiring strategy replaces both eigenvector storage
entries with dtype-cast copies — here their dtype tags change from float64 to
float32 — so the trackers do not leave those entries untouched. -/
theorem lambda_update_replaces_eigenvector_entries :
    (lambdaPostStorage
        (_update_lambda_matrix c5Args c5Pre 1 .float32 (fun _ => 0))).activation_eigenvectors
      ≠ c5Pre.activation_eigenvectors
    ∧ (lambdaPostStorage
        (_update_lambda_matrix c5Args c5Pre 1 .float32 (fun _ => 0))).gradient_eigenvectors
      ≠ c5Pre.gradient_eigenvectors
    ∧ (lambdaPostStorage
        (_update_lambda_matrix c5Args c5Pre 1 .float32 (fun _ => 0))).activation_eigenvectors.map
          Prod.fst = some .float32
    ∧ c5Pre.activation_eigenvectors.map Prod.fst = some .float64 := by
  refine ⟨?_, ?_, ?_, rfl⟩ <;> decide

/-- C7: for each tracker, `exist()` is true iff every factor name in its
group is non-`None` (both covariance matrices and both counts for
`CovarianceTracker`; the Lambda matrix and its count for `LambdaTracker`),
and from any state where `exist()` is true, setting any single one of those
entries to `None` flips `exist()` to false. -/
theorem exist_iff_all_group_factors_present :
    (∀ (dIn dOut : ℕ) (s : CovStorage dIn dOut),
      CovarianceTracker.exist s = true
        ↔ s.activation_covariance_matrix.isSome = true
          ∧ s.num_activation_covariance_processed.isSome = true
          ∧ s.gradient_covariance_matrix.isSome = true
          ∧ s.num_gradient_covariance_processed.isSome = true)
    ∧ (∀ (r c : ℕ) (s : LambdaStorage r c),
      LambdaTracker.exist s = true
        ↔ s.lambda_matrix.isSome = true ∧ s.num_lambda_processed.isSome = true)
    ∧ (∀ (dIn dOut : ℕ) (s : CovStorage dIn dOut),
      CovarianceTracker.exist s = true →
        CovarianceTracker.exist ({ s with activation_covariance_matrix := none } : CovStorage dIn dOut) = false
        ∧ CovarianceTracker.exist ({ s with num_activation_covariance_processed := none } : CovStorage dIn dOut) = false
        ∧ CovarianceTracker.exist ({ s with gradient_covariance_matrix := none } : CovStorage dIn dOut) = false
        ∧ CovarianceTracker.exist ({ s with num_gradient_covariance_processed := none } : CovStorage dIn dOut) = false)
    ∧ (∀ (r c : ℕ) (s : LambdaStorage r c),
      LambdaTracker.exist s = true →
        LambdaTracker.exist ({ s with lambda_matrix := none } : LambdaStorage r c) = false
        ∧ LambdaTracker.exist ({ s with num_lambda_processed := none } : LambdaStorage r c) = false) := by
  refine ⟨?_, ?_, ?_, ?_⟩
  · intro dIn dOut s
    simp [CovarianceTracker.exist, and_assoc]
  · intro r c s
    simp [LambdaTracker.exist]
  · intro dIn dOut s h
    exact ⟨by simp [CovarianceTracker.exist], by simp [CovarianceTracker.exist],
      by simp [CovarianceTracker.exist], by simp [CovarianceTracker.exist]⟩
  · intro r c s h
    exact ⟨by simp [LambdaTracker.exist], by simp [LambdaTracker.exist]⟩

/-- Complete covariance storage for the C7 witness. -/
def c7Cov : CovStorage 1 1 := ⟨some 0, some 4, some 0, some 4⟩

/-- Complete Lambda storage for the C7 witness. -/
def c7Lam : LambdaStorage 1 1 := ⟨some (.float32, 0), some 3, none, none⟩

/-- Witness for C7 at concrete storages. -/
theorem exist_iff_all_group_factors_present_witness :
    (CovarianceTracker.exist ({ c7Cov with activation_covariance_matrix := none } : CovStorage 1 1) = false
      ∧ CovarianceTracker.exist ({ c7Cov with num_activation_covariance_processed := none } : CovStorage 1 1) = false
      ∧ CovarianceTracker.exist ({ c7Cov with gradient_covariance_matrix := none } : CovStorage 1 1) = false
      ∧ CovarianceTracker.exist ({ c7Cov with num_gradient_covariance_processed := none } : CovStorage 1 1) = false)
    ∧ (LambdaTracker.exist ({ c7Lam with lambda_matrix := none } : LambdaStorage 1 1) = false
      ∧ LambdaTracker.exist ({ c7Lam with num_lambda_processed := none } : LambdaStorage 1 1) = false) :=
  ⟨exist_iff_all_group_factors_present.2.2.1 1 1 c7Cov (by decide),
   exist_iff_all_group_factors_present.2.2.2 1 1 c7Lam (by decide)⟩

/-- C8: `synchronize` performs the cross-process sum-reduction of every
factor in the tracker's group exactly when a distributed context is active,
CUDA is available, and `exist()` is true; in every other case — including
partial factor presence — it leaves every storage entry unchanged (it is a
total function: nothing is raised).  For `LambdaTracker` the eigenvector
entries are untouched even when the reduction runs. -/
theorem synchronize_reduces_iff_guarded :
    (∀ (dIn dOut : ℕ) (env : DistEnv) (s : CovStorage dIn dOut) (k : ℕ),
      ((env.is_initialized && env.cuda_available && CovarianceTracker.exist s) = false →
        CovarianceTracker.synchronize env s k = s)
      ∧ ((env.is_initialized && env.cuda_available && CovarianceTracker.exist s) = true →
        (CovarianceTracker.synchronize env s k).activation_covariance_matrix
            = s.activation_covariance_matrix.map env.reduceM
          ∧ (CovarianceTracker.synchronize env s k).num_activation_covariance_processed
            = s.num_activation_covariance_processed.map env.reduceC
          ∧ (CovarianceTracker.synchronize env s k).gradient_covariance_matrix
            = s.gradient_covariance_matrix.map env.reduceM
          ∧ (CovarianceTracker.synchronize env s k).num_gradient_covariance_processed
            = s.num_gradient_covariance_processed.map env.reduceC))
    ∧ (∀ (r c : ℕ) (env : DistEnv) (s : LambdaStorage r c) (k : ℕ),
      ((env.is_initialized && env.cuda_available && LambdaTracker.exist s) = false →
        LambdaTracker.synchronize env s k = s)
      ∧ ((env.is_initialized && env.cuda_available && LambdaTracker.exist s) = true →
        (LambdaTracker.synchronize env s k).lambda_matrix
            = s.lambda_matrix.map (fun t => (t.1, env.reduceM t.2))
          ∧ (LambdaTracker.synchronize env s k).num_lambda_processed
            = s.num_lambda_processed.map env.reduceC
          ∧ (LambdaTracker.synchronize env s k).activation_eigenvectors
            = s.activation_eigenvectors
          ∧ (LambdaTracker.synchronize env s k).gradient_eigenvectors
            = s.gradient_eigenvectors)) := by
  constructor
  · intro dIn dOut env s k
    constructor
    · intro h
      unfold CovarianceTracker.synchronize
      simp [h]
    · intro h
      unfold CovarianceTracker.synchronize
      simp [h]
  · intro r c env s k
    constructor
    · intro h
      unfold LambdaTracker.synchronize
      simp [h]
    · intro h
      unfold LambdaTracker.synchronize
      simp [h]

/-- Concrete distributed environment (active and CUDA-capable) doubling every
tensor, for the C8 witness. -/
def c8Env : DistEnv :=
  { is_initialized := true, cuda_available := true,
    reduceM := fun M => M + M, reduceC := fun z => z + z }

/-- The same environment with no distributed context. -/
def c8EnvOff : DistEnv := { c8Env with is_initialized := false }

/-- Witness for C8 at concrete inputs: the no-op case on a partially present
storage and the reducing case on a complete one. -/
theorem synchronize_reduces_iff_guarded_witness :
    CovarianceTracker.synchronize c8EnvOff c7Cov 2 = c7Cov
    ∧ LambdaTracker.synchronize c8Env ({ c7Lam with num_lambda_processed := none }) 2
        = { c7Lam with num_lambda_processed := none }
    ∧ ((CovarianceTracker.synchronize c8Env c7Cov 2).activation_covariance_matrix
          = c7Cov.activation_covariance_matrix.map c8Env.reduceM
        ∧ (CovarianceTracker.synchronize c8Env c7Cov 2).num_activation_covariance_processed
          = c7Cov.num_activation_covariance_processed.map c8Env.reduceC
        ∧ (CovarianceTracker.synchronize c8Env c7Cov 2).gradient_covariance_matrix
          = c7Cov.gradient_covariance_matrix.map c8Env.reduceM
        ∧ (CovarianceTracker.synchronize c8Env c7Cov 2).num_gradient_covariance_processed
          = c7Cov.num_gradient_covariance_processed.map c8Env.reduceC) :=
  ⟨(synchronize_reduces_iff_guarded.1 1 1 c8EnvOff c7Cov 2).1 (by decide),
   (synchronize_reduces_iff_guarded.2 1 1 c8Env
      ({ c7Lam with num_lambda_processed := none }) 2).1 (by decide),
   (synchronize_reduces_iff_guarded.1 1 1 c8Env c7Cov 2).2 (by decide)⟩

/-- C9: for each tracker and from any storage state, `release_memory()` sets
every factor in the tracker's group to `None` (matrix and count together,
never orphaning a count), clears the Lambda tracker's transient caches, never
raises (it is a total function), and is idempotent. -/
theorem release_memory_all_none_idempotent :
    (∀ (dIn dOut : ℕ) (s : CovStorage dIn dOut),
      (CovarianceTracker.release_memory s).activation_covariance_matrix = none
      ∧ (CovarianceTracker.release_memory s).num_activation_covariance_processed = none
      ∧ (CovarianceTracker.release_memory s).gradient_covariance_matrix = none
      ∧ (CovarianceTracker.release_memory s).num_gradient_covariance_processed = none
      ∧ CovarianceTracker.release_memory (CovarianceTracker.release_memory s)
          = CovarianceTracker.release_memory s)
    ∧ (∀ (A : Type) (b r c : ℕ) (st : LambdaTrackerState A b r c),
      (LambdaTracker.release_memory st).storage.lambda_matrix = none
      ∧ (LambdaTracker.release_memory st).storage.num_lambda_processed = none
      ∧ (LambdaTracker.release_memory st).cached_activations = none
      ∧ (LambdaTracker.release_memory st).cached_per_sample_gradient = none
      ∧ LambdaTracker.release_memory (LambdaTracker.release_memory st)
          = LambdaTracker.release_memory st) :=
  ⟨fun _dIn _dOut _s => ⟨rfl, rfl, rfl, rfl, rfl⟩,
   fun _A _b _r _c _st => ⟨rfl, rfl, rfl, rfl, rfl⟩⟩

/-- Stacking two flattened batches vertically adds their Gram matrices. -/
theorem gram_fromRows {d : ℕ} {ρ₁ ρ₂ : Type} [Fintype ρ₁] [Fintype ρ₂]
    (A : Matrix ρ₁ (Fin d) ℚ) (B : Matrix ρ₂ (Fin d) ℚ) :
    (fromRows A B)ᵀ * fromRows A B = Aᵀ * A + Bᵀ * B := by
  rw [transpose_fromRows, fromColumns_mul_fromRows]

/-- Running firings from a state whose activation factors are initialized
accumulates the activation Grams and counts on top of the existing values. -/
theorem runCov_act_started {dIn dOut : ℕ} :
    ∀ (evs : List (CovFiring dIn dOut)) (s : CovStorage dIn dOut) (n : ℤ)
      (M : Matrix (Fin dIn) (Fin dIn) ℚ),
      s.num_activation_covariance_processed = some n →
      s.activation_covariance_matrix = some M →
      (runCovariance s evs).activation_covariance_matrix = some (M + (actGrams evs).sum)
      ∧ (runCovariance s evs).num_activation_covariance_processed
          = some (n + (actCounts evs).sum) := by
  intro evs
  induction evs with
  | nil =>
    intro s n M hn hM
    simp [runCovariance, actGrams, actCounts, hn, hM]
  | cons e evs ih =>
    intro s n M hn hM
    have hrun : ∀ t : CovFiring dIn dOut, runCovariance s (t :: evs)
        = runCovariance (covStep s t) evs := fun _ => rfl
    cases e with
    | act m x cnt =>
      have hnum : (_update_activation_covariance_matrix s x cnt).num_activation_covariance_processed
          = some (n + cnt) := by
        simp [_update_activation_covariance_matrix, hn]
      have hmat : (_update_activation_covariance_matrix s x cnt).activation_covariance_matrix
          = some (M + xᵀ * x) := by
        simp [_update_activation_covariance_matrix, hn, hM]
      obtain ⟨h1, h2⟩ := ih _ _ _ hnum hmat
      refine ⟨?_, ?_⟩
      · rw [hrun, covStep, h1]
        simp [actGrams, add_assoc]
      · rw [hrun, covStep, h2]
        simp [actCounts, add_assoc]
    | grad m g cnt =>
      have hnum : (_update_gradient_covariance_matrix s g cnt).num_activation_covariance_processed
          = some n := by
        by_cases hg : s.num_gradient_covariance_processed = none <;>
          simp [_update_gradient_covariance_matrix, hg, hn]
      have hmat : (_update_gradient_covariance_matrix s g cnt).activation_covariance_matrix
          = some M := by
        by_cases hg : s.num_gradient_covariance_processed = none <;>
          simp [_update_gradient_covariance_matrix, hg, hM]
      obtain ⟨h1, h2⟩ := ih _ _ _ hnum hmat
      refine ⟨?_, ?_⟩
      · rw [hrun, covStep, h1]
        simp [actGrams]
      · rw [hrun, covStep, h2]
        simp [actCounts]

/-- Running firings from a state with no activation factors yields exactly the
sum of the activation Grams and counts (lazy allocation on the first
activation firing), or leaves them absent if no activation firing occurs. -/
theorem runCov_act_fresh {dIn dOut : ℕ} :
    ∀ (evs : List (CovFiring dIn dOut)) (s : CovStorage dIn dOut),
      s.num_activation_covariance_processed = none →
      s.activation_covariance_matrix = none →
      (runCovariance s evs).activation_covariance_matrix
          = (if actGrams evs = [] then none else some (actGrams evs).sum)
      ∧ (runCovariance s evs).num_activation_covariance_processed
          = (if actGrams evs = [] then none else some (actCounts evs).sum) := by
  intro evs
  induction evs with
  | nil =>
    intro s hn hM
    simp [runCovariance, actGrams, actCounts, hn, hM]
  | cons e evs ih =>
    intro s hn hM
    have hrun : ∀ t : CovFiring dIn dOut, runCovariance s (t :: evs)
        = runCovariance (covStep s t) evs := fun _ => rfl
    cases e with
    | act m x cnt =>
      have hnum : (_update_activation_covariance_matrix s x cnt).num_activation_covariance_processed
          = some cnt := by
        simp [_update_activation_covariance_matrix, hn]
      have hmat : (_update_activation_covariance_matrix s x cnt).activation_covariance_matrix
          = some (xᵀ * x) := by
        simp [_update_activation_covariance_matrix, hn]
      obtain ⟨h1, h2⟩ := runCov_act_started evs _ _ _ hnum hmat
      refine ⟨?_, ?_⟩
      · rw [hrun, covStep, h1]
        simp [actGrams]
      · rw [hrun, covStep, h2]
        simp [actGrams, actCounts]
    | grad m g cnt =>
      have hnum : (_update_gradient_covariance_matrix s g cnt).num_activation_covariance_processed
          = none := by
        by_cases hg : s.num_gradient_covariance_processed = none <;>
          simp [_update_gradient_covariance_matrix, hg, hn]
      have hmat : (_update_gradient_covariance_matrix s g cnt).activation_covariance_matrix
          = none := by
        by_cases hg : s.num_gradient_covariance_processed = none <;>
          simp [_update_gradient_covariance_matrix, hg, hM]
      obtain ⟨h1, h2⟩ := ih _ hnum hmat
      refine ⟨?_, ?_⟩
      · rw [hrun, covStep, h1]
        simp [actGrams]
      · rw [hrun, covStep, h2]
        simp [actGrams, actCounts]

/-- Gradient-side analogue of `runCov_act_started`. -/
theorem runCov_grad_started {dIn dOut : ℕ} :
    ∀ (evs : List (CovFiring dIn dOut)) (s : CovStorage dIn dOut) (n : ℤ)
      (M : Matrix (Fin dOut) (Fin dOut) ℚ),
      s.num_gradient_covariance_processed = some n →
      s.gradient_covariance_matrix = some M →
      (runCovariance s evs).gradient_covariance_matrix = some (M + (gradGrams evs).sum)
      ∧ (runCovariance s evs).num_gradient_covariance_processed
          = some (n + (gradCounts evs).sum) := by
  intro evs
  induction evs with
  | nil =>
    intro s n M hn hM
    simp [runCovariance, gradGrams, gradCounts, hn, hM]
  | cons e evs ih =>
    intro s n M hn hM
    have hrun : ∀ t : CovFiring dIn dOut, runCovariance s (t :: evs)
        = runCovariance (covStep s t) evs := fun _ => rfl
    cases e with
    | grad m g cnt =>
      have hnum : (_update_gradient_covariance_matrix s g cnt).num_gradient_covariance_processed
          = some (n + cnt) := by
        simp [_update_gradient_covariance_matrix, hn]
      have hmat : (_update_gradient_covariance_matrix s g cnt).gradient_covariance_matrix
          = some (M + gᵀ * g) := by
        simp [_update_gradient_covariance_matrix, hn, hM]
      obtain ⟨h1, h2⟩ := ih _ _ _ hnum hmat
      refine ⟨?_, ?_⟩
      · rw [hrun, covStep, h1]
        simp [gradGrams, add_assoc]
      · rw [hrun, covStep, h2]
        simp [gradCounts, add_assoc]
    | act m x cnt =>
      have hnum : (_update_activation_covariance_matrix s x cnt).num_gradient_covariance_processed
          = some n := by
        by_cases ha : s.num_activation_covariance_processed = none <;>
          simp [_update_activation_covariance_matrix, ha, hn]
      have hmat : (_update_activation_covariance_matrix s x cnt).gradient_covariance_matrix
          = some M := by
        by_cases ha : s.num_activation_covariance_processed = none <;>
          simp [_update_activation_covariance_matrix, ha, hM]
      obtain ⟨h1, h2⟩ := ih _ _ _ hnum hmat
      refine ⟨?_, ?_⟩
      · rw [hrun, covStep, h1]
        simp [gradGrams]
      · rw [hrun, covStep, h2]
        simp [gradCounts]

/-- Gradient-side analogue of `runCov_act_fresh`. -/
theorem runCov_grad_fresh {dIn dOut : ℕ} :
    ∀ (evs : List (CovFiring dIn dOut)) (s : CovStorage dIn dOut),
      s.num_gradient_covariance_processed = none →
      s.gradient_covariance_matrix = none →
      (runCovariance s evs).gradient_covariance_matrix
          = (if gradGrams evs = [] then none else some (gradGrams evs).sum)
      ∧ (runCovariance s evs).num_gradient_covariance_processed
          = (if gradGrams evs = [] then none else some (gradCounts evs).sum) := by
  intro evs
  induction evs with
  | nil =>
    intro s hn hM
    simp [runCovariance, gradGrams, gradCounts, hn, hM]
  | cons e evs ih =>
    intro s hn hM
    have hrun : ∀ t : CovFiring dIn dOut, runCovariance s (t :: evs)
        = runCovariance (covStep s t) evs := fun _ => rfl
    cases e with
    | grad m g cnt =>
      have hnum : (_update_gradient_covariance_matrix s g cnt).num_gradient_covariance_processed
          = some cnt := by
        simp [_update_gradient_covariance_matrix, hn]
      have hmat : (_update_gradient_covariance_matrix s g cnt).gradient_covariance_matrix
          = some (gᵀ * g) := by
        simp [_update_gradient_covariance_matrix, hn]
      obtain ⟨h1, h2⟩ := runCov_grad_started evs _ _ _ hnum hmat
      refine ⟨?_, ?_⟩
      · rw [hrun, covStep, h1]
        simp [gradGrams]
      · rw [hrun, covStep, h2]
        simp [gradGrams, gradCounts]
    | act m x cnt =>
      have hnum : (_update_activation_covariance_matrix s x cnt).num_gradient_covariance_processed
          = none := by
        by_cases ha : s.num_activation_covariance_processed = none <;>
          simp [_update_activation_covariance_matrix, ha, hn]
      have hmat : (_update_activation_covariance_matrix s x cnt).gradient_covariance_matrix
          = none := by
        by_cases ha : s.num_activation_covariance_processed = none <;>
          simp [_update_activation_covariance_matrix, ha, hM]
      obtain ⟨h1, h2⟩ := ih _ hnum hmat
      refine ⟨?_, ?_⟩
      · rw [hrun, covStep, h1]
        simp [gradGrams]
      · rw [hrun, covStep, h2]
        simp [gradGrams, gradCounts]

/-- C4: without parameter sharing, after any interleaving of forward and
backward firings the activation-covariance matrix equals the sum of `xᵀ x`
over the processed flattened activations with its count the sum of the
firings' element counts, and analogously (with an independently tracked
count) for the gradient-covariance matrix; moreover both accumulations are
independent of batching granularity: two successive updates equal one update
on the vertically stacked batch with the summed count. -/
theorem covariance_closed_form_and_batch_invariant :
    (∀ (dIn dOut : ℕ) (evs : List (CovFiring dIn dOut)),
      (runCovariance (covInit dIn dOut) evs).activation_covariance_matrix
          = (if actGrams evs = [] then none else some (actGrams evs).sum)
        ∧ (runCovariance (covInit dIn dOut) evs).num_activation_covariance_processed
          = (if actGrams evs = [] then none else some (actCounts evs).sum)
        ∧ (runCovariance (covInit dIn dOut) evs).gradient_covariance_matrix
          = (if gradGrams evs = [] then none else some (gradGrams evs).sum)
        ∧ (runCovariance (covInit dIn dOut) evs).num_gradient_covariance_processed
          = (if gradGrams evs = [] then none else some (gradCounts evs).sum))
    ∧ (∀ (dIn dOut m₁ m₂ : ℕ) (s : CovStorage dIn dOut)
        (x₁ : Matrix (Fin m₁) (Fin dIn) ℚ) (x₂ : Matrix (Fin m₂) (Fin dIn) ℚ) (c₁ c₂ : ℤ),
      _update_activation_covariance_matrix
          (_update_activation_covariance_matrix s x₁ c₁) x₂ c₂
        = _update_activation_covariance_matrix s (fromRows x₁ x₂) (c₁ + c₂))
    ∧ (∀ (dIn dOut m₁ m₂ : ℕ) (s : CovStorage dIn dOut)
        (g₁ : Matrix (Fin m₁) (Fin dOut) ℚ) (g₂ : Matrix (Fin m₂) (Fin dOut) ℚ) (c₁ c₂ : ℤ),
      _update_gradient_covariance_matrix
          (_update_gradient_covariance_matrix s g₁ c₁) g₂ c₂
        = _update_gradient_covariance_matrix s (fromRows g₁ g₂) (c₁ + c₂)) := by
  refine ⟨?_, ?_, ?_⟩
  · intro dIn dOut evs
    obtain ⟨ha1, ha2⟩ := runCov_act_fresh evs (covInit dIn dOut) rfl rfl
    obtain ⟨hg1, hg2⟩ := runCov_grad_fresh evs (covInit dIn dOut) rfl rfl
    exact ⟨ha1, ha2, hg1, hg2⟩
  · intro dIn dOut m₁ m₂ s x₁ x₂ c₁ c₂
    by_cases hn : s.num_activation_covariance_processed = none <;>
      simp [_update_activation_covariance_matrix, hn, gram_fromRows, add_assoc]
  · intro dIn dOut m₁ m₂ s g₁ g₂ c₁ c₂
    by_cases hn : s.num_gradient_covariance_processed = none <;>
      simp [_update_gradient_covariance_matrix, hn, gram_fromRows, add_assoc]

/-- C6: a `LambdaTracker` backward-hook firing that finds no matching cached
activation raises immediately and performs no statistic update: the
non-shared hook raises the designated cache-not-found error when
`cached_activations` is `None`, and the shared hook raises when the cache is
`None` or holds no entry; in every such case the whole tracker state
(storage included) is exactly the pre-call state — no silent skip. -/
theorem backward_hooks_raise_on_missing_cache
    (A G : Type) (b r c : ℕ) (ops : ModuleOps A G b r c) (args : FactorArgs)
    (st : LambdaTrackerState A b r c) (g : G) :
    (st.cached_activations = none →
      LambdaTracker.backward_hook ops args st g = .error (.cacheNotFound, st)
      ∧ LambdaTracker.shared_backward_hook ops args st g = .error (.attributeError, st))
    ∧ (st.cached_activations = some (.stack []) →
      LambdaTracker.shared_backward_hook ops args st g = .error (.indexError, st)) := by
  constructor
  · intro h
    constructor
    · simp [LambdaTracker.backward_hook, h]
    · simp [LambdaTracker.shared_backward_hook, h]
  · intro h
    simp [LambdaTracker.shared_backward_hook, h]

/-- Concrete module capability for the C6 witness. -/
def c6Ops : ModuleOps Unit Unit 1 1 1 := ⟨fun _ _ _ => 0⟩

/-- Concrete configuration for the C6 witness. -/
def c6Args : FactorArgs := ⟨"ekfac", true, false, true, .float32, .float32⟩

/-- Tracker state with no cached activation. -/
def c6St : LambdaTrackerState Unit 1 1 1 := ⟨⟨none, none, none, none⟩, none, none⟩

/-- Tracker state whose shared-path cache holds no entry. -/
def c6StEmpty : LambdaTrackerState Unit 1 1 1 :=
  ⟨⟨none, none, none, none⟩, some (.stack []), none⟩

/-- Witness for C6 at concrete inputs. -/
theorem backward_hooks_raise_on_missing_cache_witness :
    LambdaTracker.backward_hook c6Ops c6Args c6St () = .error (.cacheNotFound, c6St)
    ∧ LambdaTracker.shared_backward_hook c6Ops c6Args c6St ()
        = .error (.attributeError, c6St)
    ∧ LambdaTracker.shared_backward_hook c6Ops c6Args c6StEmpty ()
        = .error (.indexError, c6StEmpty) :=
  ⟨((backward_hooks_raise_on_missing_cache Unit Unit 1 1 1 c6Ops c6Args c6St ()).1 rfl).1,
   ((backward_hooks_raise_on_missing_cache Unit Unit 1 1 1 c6Ops c6Args c6St ()).1 rfl).2,
   (backward_hooks_raise_on_missing_cache Unit Unit 1 1 1 c6Ops c6Args c6StEmpty ()).2 rfl⟩

/-- C10: `finalize_iteration` dereferences the cached per-sample gradient
(casting it to the Lambda dtype) before checking `has_shared_parameters`, so
for every module — shared or not — calling it with the cache `None` raises
rather than no-opping, leaving the state unchanged; it returns normally only
when the cache is non-`None`; and for a non-shared module with a cached
gradient it clears all caches and leaves the storage untouched (no Lambda
update). -/
theorem finalize_iteration_requires_cached_gradient
    (A : Type) (b r c : ℕ) (args : FactorArgs) (st : LambdaTrackerState A b r c) :
    (st.cached_per_sample_gradient = none →
      LambdaTracker.finalize_iteration args st = .error (.attributeError, st))
    ∧ (∀ st₂, LambdaTracker.finalize_iteration args st = .ok st₂ →
        st.cached_per_sample_gradient ≠ none)
    ∧ (args.has_shared_parameters = false →
      ∀ (dt : DType) (v : Fin b → Matrix (Fin r) (Fin c) ℚ),
        st.cached_per_sample_gradient = some (dt, v) →
        LambdaTracker.finalize_iteration args st
          = .ok { storage := st.storage, cached_activations := none,
                  cached_per_sample_gradient := none }) := by
  refine ⟨?_, ?_, ?_⟩
  · intro h
    simp [LambdaTracker.finalize_iteration, h]
  · intro st₂ hok
    intro hnone
    simp [LambdaTracker.finalize_iteration, hnone] at hok
  · intro hsh dt v hv
    simp [LambdaTracker.finalize_iteration, hv, hsh, clear_all_cache]

/-- Non-shared configuration for the C10 witness. -/
def c10Args : FactorArgs := ⟨"identity", false, false, false, .float32, .float32⟩

/-- Shared configuration for the C10 witness. -/
def c10ArgsShared : FactorArgs := ⟨"identity", false, false, true, .float32, .float32⟩

/-- Tracker state with no cached per-sample gradient. -/
def c10StNone : LambdaTrackerState Unit 1 1 1 := ⟨⟨none, none, none, none⟩, none, none⟩

/-- Non-shared tracker state with a cached per-sample gradient. -/
def c10StSome : LambdaTrackerState Unit 1 1 1 :=
  ⟨⟨none, none, none, none⟩, none, some (.float32, fun _ => 0)⟩

/-- Witness for C10 at concrete inputs: the raise happens under both shared
and non-shared configurations, and the non-shared success clears caches
without touching storage. -/
theorem finalize_iteration_requires_cached_gradient_witness :
    LambdaTracker.finalize_iteration c10Args c10StNone
        = .error (.attributeError, c10StNone)
    ∧ LambdaTracker.finalize_iteration c10ArgsShared c10StNone
        = .error (.attributeError, c10StNone)
    ∧ LambdaTracker.finalize_iteration c10Args c10StSome
        = .ok { storage := c10StSome.storage, cached_activations := none,
                cached_per_sample_gradient := none } :=
  ⟨(finalize_iteration_requires_cached_gradient Unit 1 1 1 c10Args c10StNone).1 rfl,
   (finalize_iteration_requires_cached_gradient Unit 1 1 1 c10ArgsShared c10StNone).1 rfl,
   (finalize_iteration_requires_cached_gradient Unit 1 1 1 c10Args c10StSome).2.2 rfl
     .float32 (fun _ => 0) rfl⟩

/-- Shared-path forward firings append to the activation stack in order. -/
theorem runForwards_stack {A : Type} {b r c : ℕ} (args : FactorArgs)
    (hsh : args.has_shared_parameters = true) :
    ∀ (acts : List A) (stor : LambdaStorage r c)
      (cp : Option (DType × (Fin b → Matrix (Fin r) (Fin c) ℚ))) (l : List A),
      LambdaTracker.runForwards args ⟨stor, some (.stack l), cp⟩ acts
        = .ok ⟨stor, some (.stack (l ++ acts)), cp⟩ := by
  intro acts
  induction acts with
  | nil =>
    intro stor cp l
    simp [LambdaTracker.runForwards, pure, Except.pure]
  | cons a rest ih =>
    intro stor cp l
    have hstep : LambdaTracker.forward_hook args ⟨stor, some (.stack l), cp⟩ a
        = .ok ⟨stor, some (.stack (l ++ [a])), cp⟩ := by
      simp [LambdaTracker.forward_hook, hsh]
    have hrest := ih stor cp (l ++ [a])
    simp only [LambdaTracker.runForwards] at hrest ⊢
    rw [List.foldlM_cons, hstep]
    simpa [List.append_assoc] using hrest

/-- The first shared-path forward firing creates the stack. -/
theorem runForwards_fresh {A : Type} {b r c : ℕ} (args : FactorArgs)
    (hsh : args.has_shared_parameters = true) (acts : List A)
    (stor : LambdaStorage r c)
    (cp : Option (DType × (Fin b → Matrix (Fin r) (Fin c) ℚ)))
    (hne : acts ≠ []) :
    LambdaTracker.runForwards args ⟨stor, none, cp⟩ acts
      = .ok ⟨stor, some (.stack acts), cp⟩ := by
  cases acts with
  | nil => exact absurd rfl hne
  | cons a rest =>
    have hstep : LambdaTracker.forward_hook args ⟨stor, none, cp⟩ a
        = .ok ⟨stor, some (.stack [a]), cp⟩ := by
      simp [LambdaTracker.forward_hook, hsh]
    have hrest := runForwards_stack args hsh rest stor cp [a]
    simp only [LambdaTracker.runForwards] at hrest ⊢
    rw [List.foldlM_cons, hstep]
    simpa using hrest

/-- Shared-path backward firings pop the stack last-in-first-out and add each
pair's per-sample gradient into the running cache (already initialized). -/
theorem runSharedBackwards_stack {A G : Type} {b r c : ℕ}
    (ops : ModuleOps A G b r c) (args : FactorArgs) :
    ∀ (gs : List G) (l : List A) (stor : LambdaStorage r c)
      (p : DType × (Fin b → Matrix (Fin r) (Fin c) ℚ)),
      gs.length ≤ l.length →
      LambdaTracker.runSharedBackwards ops args ⟨stor, some (.stack l), some p⟩ gs
        = .ok ⟨stor, some (.stack (l.take (l.length - gs.length))),
            some (p.1, p.2 + ((gs.zip l.reverse).map
              (fun pr => ops.compute_per_sample_gradient pr.2 pr.1)).sum)⟩ := by
  intro gs
  induction gs with
  | nil =>
    intro l stor p hlen
    simp [LambdaTracker.runSharedBackwards, pure, Except.pure]
  | cons g rest ih =>
    intro l stor p hlen
    rcases List.eq_nil_or_concat' l with rfl | ⟨l', a, rfl⟩
    · simp at hlen
    · have hstep : LambdaTracker.shared_backward_hook ops args
            ⟨stor, some (.stack (l' ++ [a])), some p⟩ g
          = .ok ⟨stor, some (.stack l'),
              some (p.1, p.2 + ops.compute_per_sample_gradient a g)⟩ := by
        simp [LambdaTracker.shared_backward_hook, List.getLast?_concat,
          List.dropLast_concat]
      have hlen' : rest.length ≤ l'.length := by
        simp at hlen
        omega
      have hrest := ih l' stor (p.1, p.2 + ops.compute_per_sample_gradient a g) hlen'
      simp only [LambdaTracker.runSharedBackwards] at hrest ⊢
      rw [List.foldlM_cons, hstep]
      have htake : (l' ++ [a]).take ((l' ++ [a]).length - (g :: rest).length)
          = l'.take (l'.length - rest.length) := by
        have h1 : (l' ++ [a]).length - (g :: rest).length = l'.length - rest.length := by
          simp only [List.length_append, List.length_cons, List.length_nil]
          omega
        rw [h1, List.take_append_of_le_length (Nat.sub_le _ _)]
      have hrev : (l' ++ [a]).reverse = a :: l'.reverse := by simp
      simp only [htake, hrev, List.zip_cons_cons, List.map_cons, List.sum_cons]
      simpa [add_assoc] using hrest

/-- Shared-path backward firings starting with an empty per-sample-gradient
cache lazily zero-initialize it at the first contribution and accumulate the
LIFO-paired per-sample gradients. -/
theorem runSharedBackwards_fresh {A G : Type} {b r c : ℕ}
    (ops : ModuleOps A G b r c) (args : FactorArgs) (gs : List G) (l : List A)
    (stor : LambdaStorage r c) (hne : gs ≠ []) (hlen : gs.length ≤ l.length) :
    LambdaTracker.runSharedBackwards ops args ⟨stor, some (.stack l), none⟩ gs
      = .ok ⟨stor, some (.stack (l.take (l.length - gs.length))),
          some (args.per_sample_gradient_dtype, ((gs.zip l.reverse).map
            (fun pr => ops.compute_per_sample_gradient pr.2 pr.1)).sum)⟩ := by
  cases gs with
  | nil => exact absurd rfl hne
  | cons g rest =>
    rcases List.eq_nil_or_concat' l with rfl | ⟨l', a, rfl⟩
    · simp at hlen
    · have hstep : LambdaTracker.shared_backward_hook ops args
            ⟨stor, some (.stack (l' ++ [a])), none⟩ g
          = .ok ⟨stor, some (.stack l'),
              some (args.per_sample_gradient_dtype,
                (0 : Fin b → Matrix (Fin r) (Fin c) ℚ)
                  + ops.compute_per_sample_gradient a g)⟩ := by
        simp [LambdaTracker.shared_backward_hook, List.getLast?_concat,
          List.dropLast_concat]
      have hlen' : rest.length ≤ l'.length := by
        simp at hlen
        omega
      have hrest := runSharedBackwards_stack ops args rest l' stor
        (args.per_sample_gradient_dtype,
          (0 : Fin b → Matrix (Fin r) (Fin c) ℚ) + ops.compute_per_sample_gradient a g)
        hlen'
      simp only [LambdaTracker.runSharedBackwards] at hrest ⊢
      rw [List.foldlM_cons, hstep]
      have htake : (l' ++ [a]).take ((l' ++ [a]).length - (g :: rest).length)
          = l'.take (l'.length - rest.length) := by
        have h1 : (l' ++ [a]).length - (g :: rest).length = l'.length - rest.length := by
          simp only [List.length_append, List.length_cons, List.length_nil]
          omega
        rw [h1, List.take_append_of_le_length (Nat.sub_le _ _)]
      have hrev : (l' ++ [a]).reverse = a :: l'.reverse := by simp
      simp only [htake, hrev, List.zip_cons_cons, List.map_cons, List.sum_cons]
      simpa [add_assoc] using hrest

/-- C3: for a shared-parameter module, a pass of `n` forward firings followed
by `n` backward firings pushes the activations in order; the `k`-th backward
firing consumes the activation of the `(n-k+1)`-th forward firing (strict
LIFO, expressed by zipping the gradients against the reversed activation
list), with the running cached per-sample gradient equal to the sum of
`compute_per_sample_gradient` over the pairs processed so far (lazily
zero-initialized at the first contribution, `None` while no backward has
fired); and `finalize_iteration` casts the accumulated sum to the Lambda
dtype, feeds it into `_update_lambda_matrix` exactly once, then clears all
caches. -/
theorem shared_pass_lifo_accumulation
    (A G : Type) (b r c : ℕ) (ops : ModuleOps A G b r c) (args : FactorArgs)
    (stor : LambdaStorage r c) (acts : List A) (gs : List G)
    (hsh : args.has_shared_parameters = true)
    (hlen : gs.length = acts.length)
    (hne : acts ≠ []) :
    LambdaTracker.runForwards args
        (⟨stor, none, none⟩ : LambdaTrackerState A b r c) acts
      = .ok ⟨stor, some (.stack acts), none⟩
    ∧ (∀ k, k ≤ gs.length →
        LambdaTracker.runSharedBackwards ops args
            (⟨stor, some (.stack acts), none⟩ : LambdaTrackerState A b r c) (gs.take k)
          = if k = 0 then .ok ⟨stor, some (.stack acts), none⟩
            else .ok ⟨stor, some (.stack (acts.take (acts.length - k))),
              some (args.per_sample_gradient_dtype,
                (((gs.take k).zip acts.reverse).map
                  (fun pr => ops.compute_per_sample_gradient pr.2 pr.1)).sum)⟩)
    ∧ (∀ s₂, _update_lambda_matrix args stor b args.lambda_dtype
          ((gs.zip acts.reverse).map
            (fun pr => ops.compute_per_sample_gradient pr.2 pr.1)).sum
          = .ok s₂ →
        LambdaTracker.finalize_iteration args
            ⟨stor, some (.stack (acts.take (acts.length - gs.length))),
             some (args.per_sample_gradient_dtype,
               ((gs.zip acts.reverse).map
                 (fun pr => ops.compute_per_sample_gradient pr.2 pr.1)).sum)⟩
          = .ok ⟨s₂, none, none⟩) := by
  refine ⟨runForwards_fresh args hsh acts stor none hne, ?_, ?_⟩
  · intro k hk
    by_cases hk0 : k = 0
    · subst hk0
      simp [LambdaTracker.runSharedBackwards, pure, Except.pure]
    · have hne' : gs.take k ≠ [] := by
        cases gs with
        | nil => simp at hk; omega
        | cons g rest => cases k with
          | zero => exact absurd rfl hk0
          | succ k => simp
      have hlen' : (gs.take k).length ≤ acts.length := by
        simp
        omega
      have h := runSharedBackwards_fresh ops args (gs.take k) acts stor hne' hlen'
      have hlk : (gs.take k).length = k := by
        simp
        omega
      rw [hlk] at h
      simp [hk0, h]
  · intro s₂ hupd
    simp [LambdaTracker.finalize_iteration, hsh, hupd, clear_all_cache]

/-- Concrete per-sample-gradient capability (value depends on the pair, so
pairings are distinguishable) for the C3 witness. -/
def c3Ops : ModuleOps ℕ ℕ 1 1 1 :=
  ⟨fun a g _ => Matrix.of fun _ _ => (10 * a + g : ℚ)⟩

/-- Shared-parameter configuration for the C3 witness. -/
def c3Args : FactorArgs := ⟨"identity", false, false, true, .float32, .float32⟩

/-- Empty storage for the C3 witness. -/
def c3Stor : LambdaStorage 1 1 := ⟨none, none, none, none⟩

/-- Three forward activations for the C3 witness. -/
def c3Acts : List ℕ := [1, 2, 3]

/-- Three backward gradients for the C3 witness. -/
def c3Gs : List ℕ := [4, 5, 6]

/-- Witness for C3 at a concrete three-invocation pass. -/
theorem shared_pass_lifo_accumulation_witness :
    LambdaTracker.runForwards c3Args
        (⟨c3Stor, none, none⟩ : LambdaTrackerState ℕ 1 1 1) c3Acts
      = .ok ⟨c3Stor, some (.stack c3Acts), none⟩
    ∧ (LambdaTracker.runSharedBackwards c3Ops c3Args
          (⟨c3Stor, some (.stack c3Acts), none⟩ : LambdaTrackerState ℕ 1 1 1)
          (c3Gs.take 2)
        = if 2 = 0 then .ok ⟨c3Stor, some (.stack c3Acts), none⟩
          else .ok ⟨c3Stor, some (.stack (c3Acts.take (c3Acts.length - 2))),
            some (c3Args.per_sample_gradient_dtype,
              (((c3Gs.take 2).zip c3Acts.reverse).map
                (fun pr => c3Ops.compute_per_sample_gradient pr.2 pr.1)).sum)⟩) :=
  ⟨(shared_pass_lifo_accumulation ℕ ℕ 1 1 1 c3Ops c3Args c3Stor c3Acts c3Gs
      rfl rfl (by decide)).1,
   (shared_pass_lifo_accumulation ℕ ℕ 1 1 1 c3Ops c3Args c3Stor c3Acts c3Gs
      rfl rfl (by decide)).2.1 2 (by decide)⟩

end Kronfluence
